import Mathlib

/-!
Verification development for a small FastAPI backend controlling a
two-value operating mode stored in a text configuration file, together
with a device-information collector.  The Python source (src/main.py) is
shallowly embedded below: Python strings become Lean strings, the shell
command runner becomes a function over an explicit oracle mapping each
argv to an attempt outcome, and the configuration file becomes an
explicit abstract state of type Option String (none = unreadable).
-/

namespace Backend

/-- Characters stripped by the Python str.strip method, that is the
characters for which str.isspace holds: ASCII whitespace 0x09-0x0d and
space, the separator controls 0x1c-0x1f, next-line 0x85, no-break space
0xa0, ogham space 0x1680, the Unicode Zs range 0x2000-0x200a, line and
paragraph separators 0x2028-0x2029, narrow no-break 0x202f, math space
0x205f and ideographic space 0x3000. -/
def isPySpace (c : Char) : Bool :=
  let n := c.toNat
  (9 ≤ n && n ≤ 13) || n == 32 || (28 ≤ n && n ≤ 31) || n == 133 ||
    n == 160 || n == 5760 || (8192 ≤ n && n ≤ 8202) || n == 8232 ||
    n == 8233 || n == 8239 || n == 8287 || n == 12288

/-- Python str.strip with no argument: removes leading and trailing
whitespace characters. -/
def pyStrip (s : String) : String :=
  String.mk (((s.toList.dropWhile isPySpace).reverse.dropWhile isPySpace).reverse)

/-- Line-break characters recognized by the Python str.splitlines method:
LF, VT, FF, CR, the separator controls 0x1c-0x1e, next-line 0x85 and the
Unicode line and paragraph separators. -/
def isPyLineBreak (c : Char) : Bool :=
  let n := c.toNat
  n == 10 || n == 11 || n == 12 || n == 13 || n == 28 || n == 29 ||
    n == 30 || n == 133 || n == 8232 || n == 8233

/-- Worker for pySplitlines: accumulates the current line in reverse,
treating a CR LF pair as a single break, and drops a trailing empty
line as Python does. -/
def splitlinesAux (cs : List Char) (acc : List Char) : List String :=
  match cs with
  | [] => if acc.isEmpty then [] else [String.mk acc.reverse]
  | '\x0d' :: '\x0a' :: rest => String.mk acc.reverse :: splitlinesAux rest []
  | c :: rest =>
    if isPyLineBreak c then String.mk acc.reverse :: splitlinesAux rest []
    else splitlinesAux rest (c :: acc)

/-- Python str.splitlines with keepends false. -/
def pySplitlines (s : String) : List String :=
  splitlinesAux s.toList []

/-- Python str.lower restricted to ASCII strings, which covers every
string this development applies it to (CPython additionally lowercases
non-ASCII cased letters). -/
def pyLower (s : String) : String :=
  String.mk (s.toList.map (fun c =>
    if 65 ≤ c.toNat && c.toNat ≤ 90 then Char.ofNat (c.toNat + 32) else c))

/-- Worker for pySplitWs: splits on runs of whitespace, discarding
leading, trailing and repeated separators as Python str.split with no
argument does. -/
def splitWsAux (cs : List Char) (acc : List Char) : List String :=
  match cs with
  | [] => if acc.isEmpty then [] else [String.mk acc.reverse]
  | c :: rest =>
    if isPySpace c then
      if acc.isEmpty then splitWsAux rest []
      else String.mk acc.reverse :: splitWsAux rest []
    else splitWsAux rest (c :: acc)

/-- Python str.split with no argument: whitespace-run splitting with no
empty fields. -/
def pySplitWs (s : String) : List String :=
  splitWsAux s.toList []

/-- Worker for pyStartsWith over character lists. -/
def startsWithAux : List Char → List Char → Bool
  | [], _ => true
  | _ :: _, [] => false
  | p :: ps, c :: cs => p == c && startsWithAux ps cs

/-- Python s.startswith(pre). -/
def pyStartsWith (s pre : String) : Bool :=
  startsWithAux pre.toList s.toList

/-- The characters after the first occurrence of sep, the second field
of the Python expression s.split(sep, 1) when sep occurs in s (the only
way the source uses it, guarded by a startswith check). -/
def splitOnceAfter (sep : Char) (s : String) : String :=
  String.mk ((s.toList.dropWhile (fun c => c ≠ sep)).drop 1)

/-- Concatenation of a list of character lists. -/
def joinChars : List (List Char) → List Char
  | [] => []
  | l :: ls => l ++ joinChars ls

def squote : Char := Char.ofNat 39

def dquote : Char := Char.ofNat 34

/-- Quote character chosen by the CPython repr of a string: a double
quote when the string holds a single quote but no double quote,
otherwise a single quote. -/
def pyReprQuote (s : String) : Char :=
  if s.toList.contains squote && !(s.toList.contains dquote) then dquote
  else squote

/-- Escape of one character inside the CPython repr of a string, for the
printable characters plus backslash, newline, carriage return and tab
(the only characters this development applies it to; CPython
additionally hex-escapes other non-printable characters). -/
def pyReprEscapeChar (q c : Char) : List Char :=
  if c = '\\' then ['\\', '\\']
  else if c = '\x0a' then ['\\', 'n']
  else if c = '\x0d' then ['\\', 'r']
  else if c = '\x09' then ['\\', 't']
  else if c = q then ['\\', c]
  else [c]

/-- CPython repr of a string: the chosen quote character around the
escaped characters. -/
def pyRepr (s : String) : String :=
  let q := pyReprQuote s
  String.mk (q :: (joinChars (s.toList.map (pyReprEscapeChar q)) ++ [q]))

/-- Python truthiness-based fallback x or y on an optional string: an
absent or empty string falls through to the fallback. -/
def pyOrOpt (a : Option String) (b : String) : String :=
  match a with
  | some s => if s = "" then b else s
  | none => b

/-- Python expression s or None on a string: empty becomes None. -/
def strOrNone (s : String) : Option String :=
  if s = "" then none else some s

/-! ## Command runner (src/main.py, run_cmd)

The outcome of one subprocess.run attempt on a given argv is supplied by
an oracle: either the process completed with captured stdout, stderr and
return code, or the attempt raised (FileNotFoundError, timeout, or any
other exception — run_cmd treats them all alike, continuing with the
next strategy). -/

inductive AttemptResult where
  | ok (stdout stderr : String) (returncode : Int)
  | exc
deriving DecidableEq, Repr

/-- The loop body of run_cmd: try each argv in order; a completed
attempt with return code 0 returns immediately with whitespace-stripped
stdout and stderr-or-None; a non-zero return code or an exception falls
through to the next strategy; exhaustion yields the fixed triple. -/
def runAttempts (exec : List String → AttemptResult) :
    List (List String) → String × Option String × Int
  | [] => ("", some "Command failed", 1)
  | c :: rest =>
    match exec c with
    | AttemptResult.ok out err code =>
      if code = 0 then (pyStrip out, strOrNone (pyStrip err), code)
      else runAttempts exec rest
    | AttemptResult.exc => runAttempts exec rest

/-- The ordered strategy list built by run_cmd: the elevated-privilege
invocation first when use_su is set, then the plain shell. -/
def try_cmds (cmd : String) (use_su : Bool) : List (List String) :=
  (if use_su then [["su", "-c", cmd]] else []) ++ [["sh", "-c", cmd]]

/-- run_cmd from src/main.py over the attempt oracle. -/
def runCmd (cmd : String) (use_su : Bool)
    (exec : List String → AttemptResult) : String × Option String × Int :=
  runAttempts exec (try_cmds cmd use_su)

/-- Specification-side view of the runner loop: the stdout and stderr of
the first strategy in the list that completes with exit code 0, if any. -/
def firstZeroExit (exec : List String → AttemptResult) :
    List (List String) → Option (String × String)
  | [] => none
  | c :: rest =>
    match exec c with
    | AttemptResult.ok out err code =>
      if code = 0 then some (out, err) else firstZeroExit exec rest
    | AttemptResult.exc => firstZeroExit exec rest

/-! ## Shell semantics for the two file commands

The configuration file is modelled as an abstract state of type
Option String: some c when the file is readable with content c, none
when every strategy fails to read it.  The two shell commands issued by
the config store are modelled against this state. -/

/-- Value of a well-formed single-quoted shell word: the body between
the quotes, taken verbatim (single quotes suppress all shell
processing).  Words outside this shape evaluate to none; every word the
claims below produce is of this shape. -/
def shSingleQuotedBody (w : String) : Option String :=
  match w.toList with
  | [] => none
  | q :: rest =>
    if q = squote && rest.length ≥ 1 && rest.getLast? == some squote
        && !(rest.dropLast.contains squote) then
      some (String.mk rest.dropLast)
    else none

/-- Models run_cmd on the command cat CONFIG_PATH: when the file is
readable, cat prints its content and exits 0, and run_cmd strips the
captured stdout; when it is not, both strategies fail and run_cmd
returns its exhausted triple. -/
def catRun (fs : Option String) : String × Option String × Int :=
  match fs with
  | some c => (pyStrip c, none, 0)
  | none => ("", some "Command failed", 1)

/-- Models run_cmd on the command printf %s w redirected to
CONFIG_PATH, with w the escaped word produced by sh_escape: the shell
hands printf the quoted body, printf with the %s directive prints the
argument with no escape processing (POSIX), the redirection replaces the
file content and the command exits 0.  A word outside the single-quoted
fragment is mapped to a failed write leaving the file unchanged; the
claims below never produce one. -/
def runPrintfWrite (fs : Option String) (w : String) : Option String × Int :=
  match shSingleQuotedBody w with
  | some body => (some body, 0)
  | none => (fs, 1)

/-! ## Config mode store (src/main.py, read_config_mode / write_config_mode) -/

/-- The loop of read_config_mode: scan the lines for the first whose
stripped form starts with mode=, and return the part after the first
equals sign, stripped. -/
def firstModeValue : List String → Option String
  | [] => none
  | line :: rest =>
    let l := pyStrip line
    if pyStartsWith l "mode=" then some (pyStrip (splitOnceAfter '=' l))
    else firstModeValue rest

/-- read_config_mode from src/main.py over the abstract file state. -/
def read_config_mode (fs : Option String) : Option String :=
  let r := catRun fs
  if r.2.2 ≠ 0 ∨ r.1 = "" then none
  else firstModeValue (pySplitlines r.1)

/-- sh_escape from src/main.py: the Python repr of the string. -/
def sh_escape (s : String) : String := pyRepr s

/-- The rewrite loop of write_config_mode: every line whose stripped
form starts with mode= is replaced by the new mode line, and the flag
records whether any was. -/
def rewriteModeLines (new_mode : String) : List String → List String × Bool
  | [] => ([], false)
  | line :: rest =>
    let t := rewriteModeLines new_mode rest
    if pyStartsWith (pyStrip line) "mode=" then
      (("mode=" ++ new_mode) :: t.1, true)
    else (line :: t.1, t.2)

/-- write_config_mode from src/main.py over the abstract file state: an
invalid mode raises ValueError (modelled as Except.error); otherwise the
file is read through the runner, the mode line rewritten or appended on
the stripped content, and the result persisted through the
printf-redirect command; the returned flag is the success of the write
command, paired with the resulting file state. -/
def write_config_mode (new_mode : String) (fs : Option String) :
    Except String (Bool × Option String) :=
  if new_mode ≠ "otomatis" ∧ new_mode ≠ "statis" then
    Except.error "Mode harus \x27otomatis\x27 atau \x27statis\x27"
  else
    let r := catRun fs
    let content :=
      if r.2.2 = 0 ∧ r.1 ≠ "" then
        let t := rewriteModeLines new_mode (pySplitlines r.1)
        let new_lines := if t.2 then t.1 else t.1 ++ ["mode=" ++ new_mode]
        String.intercalate "\n" new_lines ++ "\n"
      else "mode=" ++ new_mode ++ "\n"
    let w := runPrintfWrite fs (sh_escape content)
    Except.ok (w.2 == 0, w.1)

/-! ## HTTP surface for the mode endpoints (src/main.py, get_mode / set_mode) -/

/-- Outcome of the POST /api/mode handler: a normal JSON response
echoing the accepted mode, a 400-class client error, or a 500-class
server error (an HTTPException with status 500, or an uncaught exception
surfaced by the framework as a server error). -/
inductive ApiResult where
  | ok (mode : String)
  | clientError (detail : String)
  | serverError (detail : String)
deriving DecidableEq, Repr

/-- get_mode from src/main.py, returning the mode field of the response
(the config_path field is the constant CONFIG_PATH). -/
def get_mode (fs : Option String) : String :=
  match read_config_mode fs with
  | some m => if m = "otomatis" ∨ m = "statis" then m else "unknown"
  | none => "unknown"

/-- set_mode from src/main.py: normalize the payload mode (lowercase
then strip), reject with a 400 error when it is not one of the two
recognized literals, otherwise write it and report a 500 error when the
write command failed; paired with the resulting file state. -/
def set_mode (payload_mode : String) (fs : Option String) :
    ApiResult × Option String :=
  let mode := pyStrip (pyLower payload_mode)
  if mode ≠ "otomatis" ∧ mode ≠ "statis" then
    (ApiResult.clientError "Mode harus \x27otomatis\x27 atau \x27statis\x27", fs)
  else
    match write_config_mode mode fs with
    | Except.error d => (ApiResult.serverError d, fs)
    | Except.ok sw =>
      if sw.1 then (ApiResult.ok mode, sw.2)
      else
        (ApiResult.serverError
          "Gagal menulis file konfigurasi. Pastikan perangkat sudah root dan path benar.",
          sw.2)

instance {α β : Type} [DecidableEq α] [DecidableEq β] : DecidableEq (Except α β) := fun a b =>
  match a, b with
  | Except.ok x, Except.ok y =>
    if h : x = y then isTrue (by rw [h])
    else isFalse (fun hc => h (by injection hc))
  | Except.error x, Except.error y =>
    if h : x = y then isTrue (by rw [h])
    else isFalse (fun hc => h (by injection hc))
  | Except.ok _, Except.error _ => isFalse (fun hc => Except.noConfusion hc)
  | Except.error _, Except.ok _ => isFalse (fun hc => Except.noConfusion hc)

/-! ## Device info collector (src/main.py, detect_binary / getprop /
get_device_info / device_info)

The collector is parameterized by the attempt oracle of the command
runner, by the process environment (os.getenv), and by the content of
the /proc/meminfo pseudo-file (none when opening it raises). -/

/-- detect_binary from src/main.py: the which command succeeded with
nonempty output. -/
def detect_binary (name : String) (exec : List String → AttemptResult) : Bool :=
  let r := runCmd ("which " ++ name) true exec
  r.2.2 == 0 && r.1 != ""

/-- getprop from src/main.py: query the property only when the getprop
binary is detected, and return the output only on a zero exit with
nonempty output. -/
def getprop (prop : String) (exec : List String → AttemptResult) : Option String :=
  if detect_binary "getprop" exec then
    let r := runCmd ("getprop " ++ prop) true exec
    if r.2.2 == 0 && r.1 != "" then some r.1 else none
  else none

structure DeviceInfo where
  model : String
  board : String
  brand : String
  android : String
  kernel : String
  cpu : String
  ram : String
deriving DecidableEq, Repr

/-- The shell pipeline probed first for the RAM size. -/
def freeCmd : String := "free | grep Mem | awk \x27\x7bprint $2\x7d\x27"

/-- get_device_info from src/main.py: the five property-backed fields
fall back from the property query to an environment variable to the
placeholder (Python or-chains, so empty strings also fall through); the
kernel is the output of a non-privileged uname query or the
placeholder; the RAM is the free pipeline output, else the MemTotal
token of the meminfo pseudo-file, else the placeholder. -/
def get_device_info (exec : List String → AttemptResult)
    (env : String → Option String) (meminfo : Option String) : DeviceInfo :=
  let model := pyOrOpt (getprop "ro.product.model" exec)
    (pyOrOpt (env "DEVICE_MODEL") "Tidak tersedia")
  let board := pyOrOpt (getprop "ro.product.board" exec)
    (pyOrOpt (env "DEVICE_BOARD") "Tidak tersedia")
  let brand := pyOrOpt (getprop "ro.product.manufacturer" exec)
    (pyOrOpt (env "DEVICE_BRAND") "Tidak tersedia")
  let android := pyOrOpt (getprop "ro.build.version.release" exec)
    (pyOrOpt (env "DEVICE_ANDROID") "Tidak tersedia")
  let kernel_out := (runCmd "uname -r" false exec).1
  let kernel := if kernel_out = "" then "Tidak tersedia" else kernel_out
  let cpu := pyOrOpt (getprop "ro.hardware" exec)
    (pyOrOpt (env "DEVICE_CPU") "Tidak tersedia")
  let fr := runCmd freeCmd false exec
  let ram_kb : Option String :=
    if fr.2.2 == 0 && fr.1 != "" then some (pyStrip fr.1)
    else
      match meminfo with
      | none => none
      | some mc =>
        match (pySplitlines mc).find? (fun l => pyStartsWith l "MemTotal:") with
        | some l =>
          match pySplitWs l with
          | _ :: t :: _ => some t
          | _ => none
        | none => none
  let ram :=
    match ram_kb with
    | some k => if k = "" then "Tidak tersedia" else k ++ " kB"
    | none => "Tidak tersedia"
  { model := model, board := board, brand := brand, android := android,
    kernel := kernel, cpu := cpu, ram := ram }

/-- The GET /api/device handler device_info from src/main.py: the info
record together with the derived pretty lines.  The handler is a total
function, so producing this pair is the 200 response. -/
def device_info (exec : List String → AttemptResult)
    (env : String → Option String) (meminfo : Option String) :
    DeviceInfo × List String :=
  let info := get_device_info exec env meminfo
  (info,
    ["• Model      : " ++ info.model,
     "• Board      : " ++ info.board,
     "• Brand      : " ++ info.brand,
     "• Android    : " ++ info.android,
     "• Kernel     : " ++ info.kernel,
     "• CPU        : " ++ info.cpu,
     "• RAM        : " ++ info.ram])

/-- The three-tier resolution rule as the specification words it: the
live query result when it yields something (present and nonempty), else
the environment override when it yields something, else the
placeholder. -/
def threeTier (live envOverride : Option String) (placeholder : String) : String :=
  match live with
  | some v =>
    if v = "" then
      match envOverride with
      | some e => if e = "" then placeholder else e
      | none => placeholder
    else v
  | none =>
    match envOverride with
    | some e => if e = "" then placeholder else e
    | none => placeholder

/-- The two-tier RAM resolution as the specification words it: the
(whitespace-trimmed) output of the free pipeline when that command
completes with exit code 0 and nonempty output; else the numeric token
following the MemTotal marker in the meminfo pseudo-file when that file
is readable, such a line exists and it holds a second whitespace token;
the RAM field is the extracted kilobyte count with a kB suffix, or the
placeholder when neither tier yields a value. -/
def ramTwoTier (fr : String × Option String × Int) (meminfo : Option String) : String :=
  match
    (if fr.2.2 = 0 ∧ fr.1 ≠ "" then some (pyStrip fr.1)
     else
       match meminfo with
       | none => none
       | some mc =>
         match (pySplitlines mc).find? (fun l => pyStartsWith l "MemTotal:") with
         | some l =>
           match pySplitWs l with
           | _ :: t :: _ => some t
           | _ => none
         | none => none) with
  | some k => k ++ " kB"
  | none => "Tidak tersedia"

/-! ## Helper lemmas -/

theorem pySplitlines_empty : pySplitlines "" = [] := rfl

/-- The runner loop is the first strategy that completes with exit code
zero, or the fixed exhaustion triple. -/
theorem runAttempts_eq_firstZeroExit (exec : List String → AttemptResult) :
    ∀ cs : List (List String),
      runAttempts exec cs =
        match firstZeroExit exec cs with
        | some p => (pyStrip p.1, strOrNone (pyStrip p.2), 0)
        | none => ("", some "Command failed", 1)
  | [] => rfl
  | c :: rest => by
    simp only [runAttempts, firstZeroExit]
    cases exec c with
    | ok out err code =>
      by_cases h : code = 0
      · simp [h]
      · simp [h, runAttempts_eq_firstZeroExit exec rest]
    | exc => simp [runAttempts_eq_firstZeroExit exec rest]

/-- The scan of read_config_mode finds no mode line exactly when no
stripped line starts with the mode key. -/
theorem firstModeValue_eq_none_iff (ls : List String) :
    firstModeValue ls = none ↔
      ∀ l ∈ ls, pyStartsWith (pyStrip l) "mode=" = false := by
  induction ls with
  | nil => simp [firstModeValue]
  | cons line rest ih =>
    by_cases h : pyStartsWith (pyStrip line) "mode=" = true
    · simp [firstModeValue, h]
    · simp only [Bool.not_eq_true] at h
      simp [firstModeValue, h, ih]

/-- When the scan of read_config_mode returns a value, some stripped
line starts with the mode key. -/
theorem firstModeValue_some_mem (ls : List String) (v : String)
    (h : firstModeValue ls = some v) :
    ∃ l ∈ ls, pyStartsWith (pyStrip l) "mode=" = true := by
  induction ls with
  | nil => exact absurd h (by simp [firstModeValue])
  | cons line rest ih =>
    by_cases hl : pyStartsWith (pyStrip line) "mode=" = true
    · exact ⟨line, List.mem_cons_self line rest, hl⟩
    · simp only [Bool.not_eq_true] at hl
      simp only [firstModeValue, hl, if_neg] at h
      obtain ⟨l, hm, hp⟩ := ih (by simpa using h)
      exact ⟨l, List.mem_cons_of_mem line hm, hp⟩

/-- The Python or-chain over two optional fallbacks agrees with the
three-tier resolution rule. -/
theorem pyOrOpt_eq_threeTier (a b : Option String) (ph : String) :
    pyOrOpt a (pyOrOpt b ph) = threeTier a b ph := by
  cases a <;> cases b <;> simp [pyOrOpt, threeTier]

/-- A string built from a character list is empty exactly when the list
is. -/
theorem string_mk_eq_empty_iff (l : List Char) : String.mk l = "" ↔ l = [] := by
  constructor
  · intro h
    have h2 := congrArg String.data h
    simpa using h2
  · intro h
    rw [h]

/-- The head of a dropWhile result fails the predicate. -/
theorem dropWhile_head_false (p : Char → Bool) (l : List Char) :
    ∀ a u, l.dropWhile p = a :: u → p a = false := by
  induction l with
  | nil =>
    intro a u h
    exact absurd h (by simp)
  | cons b t ih =>
    intro a u h
    cases hb : p b
    · simp only [List.dropWhile_cons, hb, Bool.false_eq_true, if_false] at h
      injection h with h1 _
      rw [← h1]
      exact hb
    · simp only [List.dropWhile_cons, hb, if_true] at h
      exact ih a u h

/-- When the strip of a string is empty, every character of the string
is whitespace. -/
theorem pyStrip_eq_empty_all_space (z : String) (h : pyStrip z = "") :
    ∀ c ∈ z.toList, isPySpace c = true := by
  unfold pyStrip at h
  rw [string_mk_eq_empty_iff, List.reverse_eq_nil_iff,
    List.dropWhile_eq_nil_iff] at h
  intro c hc
  rw [← List.takeWhile_append_dropWhile isPySpace z.toList] at hc
  rcases List.mem_append.mp hc with h1 | h1
  · exact List.mem_takeWhile_imp h1
  · exact h c (List.mem_reverse.mpr h1)

/-- Stripping an already nonempty stripped string cannot empty it (the
strip operation leaves no whitespace at either end). -/
theorem pyStrip_pyStrip_ne_empty (o : String) (h : pyStrip o ≠ "") :
    pyStrip (pyStrip o) ≠ "" := by
  intro hss
  apply h
  have hall := pyStrip_eq_empty_all_space (pyStrip o) hss
  cases hv : (o.toList.dropWhile isPySpace).reverse.dropWhile isPySpace with
  | nil =>
    unfold pyStrip
    rw [hv]
    rfl
  | cons a u =>
    exfalso
    have ha : isPySpace a = false :=
      dropWhile_head_false isPySpace (o.toList.dropWhile isPySpace).reverse a u hv
    have hmem : a ∈ (pyStrip o).toList := by
      show a ∈ ((o.toList.dropWhile isPySpace).reverse.dropWhile isPySpace).reverse
      rw [hv]
      exact List.mem_reverse.mpr (List.mem_cons_self a u)
    have := hall a hmem
    rw [ha] at this
    exact Bool.noConfusion this

/-- Every field emitted by the whitespace splitter is nonempty. -/
theorem splitWsAux_mem_ne_empty (cs : List Char) :
    ∀ acc x, x ∈ splitWsAux cs acc → x ≠ "" := by
  induction cs with
  | nil =>
    intro acc x hx
    by_cases h : acc.isEmpty = true
    · simp [splitWsAux, h] at hx
    · simp [splitWsAux, h] at hx
      subst hx
      intro he
      rw [string_mk_eq_empty_iff, List.reverse_eq_nil_iff] at he
      exact h (by rw [he]; rfl)
  | cons c rest ih =>
    intro acc x hx
    by_cases hc : isPySpace c = true
    · by_cases h : acc.isEmpty = true
      · simp only [splitWsAux, hc, h, if_true] at hx
        exact ih [] x hx
      · simp only [splitWsAux, hc, h, if_true, if_false] at hx
        rcases List.mem_cons.mp hx with h1 | h1
        · subst h1
          intro he
          rw [string_mk_eq_empty_iff, List.reverse_eq_nil_iff] at he
          exact h (by rw [he]; rfl)
        · exact ih [] x h1
    · simp only [splitWsAux, hc, if_false] at hx
      exact ih (c :: acc) x hx

/-- Every field of a Python whitespace split is nonempty. -/
theorem pySplitWs_mem_ne_empty (s : String) (x : String) (hx : x ∈ pySplitWs s) :
    x ≠ "" :=
  splitWsAux_mem_ne_empty s.toList [] x hx

/-- Worker for the RAM clause: over any runner triple whose stripped
stdout is nonempty whenever the stdout is (every runCmd result
satisfies this, its stdout being already stripped), the RAM computation
of the source agrees with the two-tier rule. -/
theorem ram_match_eq_ramTwoTier (fr : String × Option String × Int)
    (meminfo : Option String) (hfr : fr.1 ≠ "" → pyStrip fr.1 ≠ "") :
    (match
        (if fr.2.2 == 0 && fr.1 != "" then some (pyStrip fr.1)
         else
           match meminfo with
           | none => none
           | some mc =>
             match (pySplitlines mc).find? (fun l => pyStartsWith l "MemTotal:") with
             | some l =>
               match pySplitWs l with
               | _ :: t :: _ => some t
               | _ => none
             | none => none) with
      | some k => if k = "" then "Tidak tersedia" else k ++ " kB"
      | none => "Tidak tersedia") =
      ramTwoTier fr meminfo := by
  unfold ramTwoTier
  by_cases hc : fr.2.2 = 0 ∧ fr.1 ≠ ""
  · have hb : (fr.2.2 == 0 && fr.1 != "") = true := by
      simp [hc.1, hc.2]
    simp only [hb, if_true, if_pos hc]
    rw [if_neg (hfr hc.2)]
  · have hb : (fr.2.2 == 0 && fr.1 != "") = false := by
      rcases not_and_or.mp hc with h | h
      · simp [h]
      · have h2 : fr.1 = "" := not_not.mp h
        simp [h2]
    simp only [hb, Bool.false_eq_true, if_false, if_neg hc]
    rcases meminfo with _ | mc
    · rfl
    · rcases hfind : (pySplitlines mc).find? (fun l => pyStartsWith l "MemTotal:")
        with _ | l
      · simp only [hfind]
      · simp only [hfind]
        rcases hsp : pySplitWs l with _ | ⟨a, rest⟩
        · rfl
        · rcases rest with _ | ⟨t, rest2⟩
          · rfl
          · have ht : t ≠ "" := pySplitWs_mem_ne_empty l t (by
              rw [hsp]
              exact List.mem_cons_of_mem a (List.mem_cons_self t rest2))
            show (if t = "" then "Tidak tersedia" else t ++ " kB") = t ++ " kB"
            rw [if_neg ht]

/-- The RAM field of the collector is the two-tier rule applied to the
free pipeline result and the meminfo pseudo-file. -/
theorem get_device_info_ram (exec : List String → AttemptResult)
    (env : String → Option String) (meminfo : Option String) :
    (get_device_info exec env meminfo).ram =
      ramTwoTier (runCmd freeCmd false exec) meminfo := by
  have h : runCmd freeCmd false exec =
      match firstZeroExit exec (try_cmds freeCmd false) with
      | some p => (pyStrip p.1, strOrNone (pyStrip p.2), 0)
      | none => ("", some "Command failed", 1) :=
    runAttempts_eq_firstZeroExit exec (try_cmds freeCmd false)
  have hfr : (runCmd freeCmd false exec).1 ≠ "" →
      pyStrip (runCmd freeCmd false exec).1 ≠ "" := by
    rcases hz : firstZeroExit exec (try_cmds freeCmd false) with _ | p
    · rw [hz] at h
      rw [h]
      intro hne
      exact absurd rfl hne
    · rw [hz] at h
      rw [h]
      intro hne
      exact pyStrip_pyStrip_ne_empty p.1 hne
  exact ram_match_eq_ramTwoTier (runCmd freeCmd false exec) meminfo hfr

/-! ## Claims -/

/-- C1: the claim states that writing mode statis twice in succession
leaves the configuration file with exactly one mode=statis line and all
other lines unchanged.  Evaluating the code on the file with lines
foo=1, mode=otomatis, bar=2 shows the opposite: sh_escape is the Python
repr, so the first write persists a single line holding literal
backslash-n sequences instead of newlines, and the second write,
finding no line that starts with mode=, appends another mode line and
escapes the backslashes again.  The final file contains zero lines
equal to mode=statis and no longer contains the line foo=1. -/
theorem write_statis_twice_corrupts_file :
    write_config_mode "statis" (some "foo=1\nmode=otomatis\nbar=2\n") =
      Except.ok (true, some "foo=1\\nmode=statis\\nbar=2\\n") ∧
    write_config_mode "statis" (some "foo=1\\nmode=statis\\nbar=2\\n") =
      Except.ok (true, some "foo=1\\\\nmode=statis\\\\nbar=2\\\\n\\nmode=statis\\n") ∧
    (pySplitlines "foo=1\\\\nmode=statis\\\\nbar=2\\\\n\\nmode=statis\\n").count
      "mode=statis" = 0 ∧
    ¬ ("foo=1" ∈ pySplitlines "foo=1\\\\nmode=statis\\\\nbar=2\\\\n\\nmode=statis\\n") := by
  decide

/-- C2: the claim states that after a successful write the file holds
the old lines with the first mode line replaced, or with a single
mode line appended when none existed.  Evaluating the code on the file
with the single line foo=1 shows that the persisted file is instead one
line holding a literal backslash-n sequence; no line of the result
starts with mode= and the line foo=1 is not preserved. -/
theorem write_append_corrupts_file :
    write_config_mode "otomatis" (some "foo=1\n") =
      Except.ok (true, some "foo=1\\nmode=otomatis\\n") ∧
    pySplitlines "foo=1\\nmode=otomatis\\n" = ["foo=1\\nmode=otomatis\\n"] ∧
    (∀ l ∈ pySplitlines "foo=1\\nmode=otomatis\\n",
      pyStartsWith l "mode=" = false) := by
  decide

/-- C3: the claim states that writing statis over the file with lines
foo=1, mode=otomatis, bar=2 yields the lines foo=1, mode=statis, bar=2.
Evaluating the code shows the persisted file is instead the single line
foo=1 backslash n mode=statis backslash n bar=2 backslash n. -/
theorem write_statis_order_example :
    write_config_mode "statis" (some "foo=1\nmode=otomatis\nbar=2\n") =
      Except.ok (true, some "foo=1\\nmode=statis\\nbar=2\\n") ∧
    pySplitlines "foo=1\\nmode=statis\\nbar=2\\n" ≠
      ["foo=1", "mode=statis", "bar=2"] := by
  decide

/-- C4: the claim states that after a successful write of mode m the
read operation returns m.  Evaluating the code on an unreadable initial
file shows the write persists the single line mode=statis backslash n,
and the read then returns the value statis backslash n, which differs
from statis (so the mode endpoint would report unknown). -/
theorem read_after_write_mismatch :
    write_config_mode "statis" none = Except.ok (true, some "mode=statis\\n") ∧
    read_config_mode (some "mode=statis\\n") = some "statis\\n" ∧
    ("statis\\n" : String) ≠ "statis" := by
  decide

/-- C5: for every command string, flag and attempt oracle, the runner
tries the elevated strategy first (only when the flag is set) and the
plain shell second; the first attempt completing with exit code 0 has
its whitespace-trimmed stdout returned immediately, discarding later
strategies; when no attempt exits 0 (missing executables and raised
exceptions included), the runner returns empty stdout, the fixed string
Command failed and exit code 1, and, being a total function, never
propagates an exception. -/
theorem runCmd_first_zero_exit (cmd : String) (use_su : Bool)
    (exec : List String → AttemptResult) :
    runCmd cmd use_su exec =
      match firstZeroExit exec
          ((if use_su then [["su", "-c", cmd]] else []) ++ [["sh", "-c", cmd]]) with
      | some p => (pyStrip p.1, strOrNone (pyStrip p.2), 0)
      | none => ("", some "Command failed", 1) :=
  runAttempts_eq_firstZeroExit exec _

/-- C6: for every payload whose mode, after lowercasing and trimming,
is not one of the two recognized literals, the POST handler returns the
400-class client error and the configuration file state is returned
unchanged (no write command is issued). -/
theorem set_mode_invalid_rejected (payload : String) (fs : Option String)
    (h : pyStrip (pyLower payload) ≠ "otomatis" ∧
         pyStrip (pyLower payload) ≠ "statis") :
    set_mode payload fs =
      (ApiResult.clientError "Mode harus \x27otomatis\x27 atau \x27statis\x27", fs) := by
  simp only [set_mode]
  rw [if_pos h]

/-- Witness for C6 at the payload fast of the specification example. -/
theorem set_mode_invalid_rejected_witness :
    set_mode "fast" (some "x=1\n") =
      (ApiResult.clientError "Mode harus \x27otomatis\x27 atau \x27statis\x27",
        some "x=1\n") :=
  set_mode_invalid_rejected "fast" (some "x=1\n") (by decide)

/-- C8: for every file state the GET handler returns one of the three
literals otomatis, statis, unknown (and, being a total function, never
raises); it returns unknown exactly when the file is unreadable, when no
stripped line of the stripped content starts with mode=, or when the
extracted mode value is not one of the two recognized literals. -/
theorem get_mode_total_and_unknown_iff (fs : Option String) :
    (get_mode fs = "otomatis" ∨ get_mode fs = "statis" ∨ get_mode fs = "unknown") ∧
    (get_mode fs = "unknown" ↔
      (fs = none ∨ ∃ c, fs = some c ∧
        ((∀ l ∈ pySplitlines (pyStrip c), pyStartsWith (pyStrip l) "mode=" = false) ∨
         (∃ v, firstModeValue (pySplitlines (pyStrip c)) = some v ∧
            v ≠ "otomatis" ∧ v ≠ "statis")))) := by
  cases fs with
  | none =>
    refine ⟨Or.inr (Or.inr rfl), ?_⟩
    simp [get_mode, read_config_mode, catRun]
  | some c =>
    have hread : read_config_mode (some c) =
        if pyStrip c = "" then none
        else firstModeValue (pySplitlines (pyStrip c)) := by
      by_cases hc : pyStrip c = "" <;> simp [read_config_mode, catRun, hc]
    by_cases hc : pyStrip c = ""
    · have hg : get_mode (some c) = "unknown" := by simp [get_mode, hread, hc]
      refine ⟨Or.inr (Or.inr hg), iff_of_true hg (Or.inr ⟨c, rfl, Or.inl ?_⟩)⟩
      rw [hc, pySplitlines_empty]
      intro l hl
      exact absurd hl (List.not_mem_nil l)
    · cases hf : firstModeValue (pySplitlines (pyStrip c)) with
      | none =>
        have hg : get_mode (some c) = "unknown" := by
          simp [get_mode, hread, hc, hf]
        refine ⟨Or.inr (Or.inr hg), iff_of_true hg (Or.inr ⟨c, rfl, Or.inl ?_⟩)⟩
        intro l hl
        simpa using (firstModeValue_eq_none_iff _).1 hf l hl
      | some v =>
        by_cases hv : v = "otomatis" ∨ v = "statis"
        · have hg : get_mode (some c) = v := by
            simp [get_mode, hread, hc, hf, hv]
          refine ⟨?_, ?_⟩
          · rcases hv with h1 | h1
            · exact Or.inl (by rw [hg, h1])
            · exact Or.inr (Or.inl (by rw [hg, h1]))
          · rw [hg]
            constructor
            · intro hu
              exfalso
              rcases hv with h1 | h1 <;> rw [h1] at hu <;> exact absurd hu (by decide)
            · intro hrhs
              exfalso
              rcases hrhs with hn | ⟨c2, hc2, hd⟩
              · exact Option.noConfusion hn
              · injection hc2 with hcc
                subst hcc
                rcases hd with hall | ⟨v2, hv2, hne⟩
                · obtain ⟨l, hl, hpl⟩ := firstModeValue_some_mem _ _ hf
                  rw [hall l hl] at hpl
                  exact Bool.noConfusion hpl
                · rw [hf] at hv2
                  injection hv2 with hvv
                  subst hvv
                  rcases hv with h1 | h1
                  · exact hne.1 h1
                  · exact hne.2 h1
        · have hg : get_mode (some c) = "unknown" := by
            simp [get_mode, hread, hc, hf, hv]
          exact ⟨Or.inr (Or.inr hg),
            iff_of_true hg (Or.inr ⟨c, rfl, Or.inr ⟨v, hf, not_or.mp hv⟩⟩)⟩

/-- C7: the claim states that posting the mode OTOMATIS with spaces is
accepted, echoes otomatis, and leaves the file containing the line
mode=otomatis.  Evaluating the code on an unreadable initial file shows
the request is indeed accepted and echoes otomatis, but the persisted
file is the single line mode=otomatis backslash n, which is not the
line mode=otomatis. -/
theorem post_otomatis_file_corrupted :
    set_mode " OTOMATIS " none = (ApiResult.ok "otomatis", some "mode=otomatis\\n") ∧
    ¬ ("mode=otomatis" ∈ pySplitlines "mode=otomatis\\n") := by
  decide

/-- C9 counterexample: in an environment with no property-query binary
(the which probe for getprop fails) and no environment variables, the
claim asserts every DeviceInfo field equals the placeholder; but when
the non-privileged uname query succeeds, the kernel field is its output
rather than the placeholder. -/
theorem kernel_not_placeholder_when_uname_succeeds :
    detect_binary "getprop"
      (fun c => if c = ["sh", "-c", "uname -r"] then AttemptResult.ok "6.1.0" "" 0
        else AttemptResult.exc) = false ∧
    (get_device_info
      (fun c => if c = ["sh", "-c", "uname -r"] then AttemptResult.ok "6.1.0" "" 0
        else AttemptResult.exc)
      (fun _ => none) none).kernel = "6.1.0" ∧
    ("6.1.0" : String) ≠ "Tidak tersedia" := by
  decide

/-- C9 (amended): when no property-query binary is present, no relevant
environment variables are set, and additionally the kernel and RAM
probes yield nothing (the uname query returns empty, the free pipeline
does not exit 0 with output, and the meminfo pseudo-file is unreadable),
every one of the seven DeviceInfo fields equals the placeholder
Tidak tersedia, and the GET device endpoint still produces its normal
200 payload. -/
theorem device_info_all_placeholder (exec : List String → AttemptResult)
    (env : String → Option String)
    (h1 : detect_binary "getprop" exec = false)
    (h2 : ∀ n, env n = none)
    (h3 : (runCmd "uname -r" false exec).1 = "")
    (h4 : (runCmd freeCmd false exec).2.2 ≠ 0 ∨ (runCmd freeCmd false exec).1 = "") :
    device_info exec env none =
      ({ model := "Tidak tersedia", board := "Tidak tersedia",
         brand := "Tidak tersedia", android := "Tidak tersedia",
         kernel := "Tidak tersedia", cpu := "Tidak tersedia",
         ram := "Tidak tersedia" },
       ["• Model      : Tidak tersedia",
        "• Board      : Tidak tersedia",
        "• Brand      : Tidak tersedia",
        "• Android    : Tidak tersedia",
        "• Kernel     : Tidak tersedia",
        "• CPU        : Tidak tersedia",
        "• RAM        : Tidak tersedia"]) := by
  have hgp : ∀ p, getprop p exec = none := fun p => by simp [getprop, h1]
  have hfr : ((runCmd freeCmd false exec).2.2 == 0 &&
      (runCmd freeCmd false exec).1 != "") = false := by
    rcases h4 with h | h
    · have : ((runCmd freeCmd false exec).2.2 == 0) = false := by
        simpa using h
      simp [this]
    · simp [h]
  simp [device_info, get_device_info, hgp, h2, h3, hfr, pyOrOpt]

/-- Witness for C9 in the fully degraded environment where every
command attempt raises and the environment is empty. -/
theorem device_info_all_placeholder_witness :
    device_info (fun _ => AttemptResult.exc) (fun _ => none) none =
      ({ model := "Tidak tersedia", board := "Tidak tersedia",
         brand := "Tidak tersedia", android := "Tidak tersedia",
         kernel := "Tidak tersedia", cpu := "Tidak tersedia",
         ram := "Tidak tersedia" },
       ["• Model      : Tidak tersedia",
        "• Board      : Tidak tersedia",
        "• Brand      : Tidak tersedia",
        "• Android    : Tidak tersedia",
        "• Kernel     : Tidak tersedia",
        "• CPU        : Tidak tersedia",
        "• RAM        : Tidak tersedia"]) :=
  device_info_all_placeholder (fun _ => AttemptResult.exc) (fun _ => none)
    (by decide) (fun _ => rfl) (by decide) (Or.inl (by decide))

/-- C10 counterexample: the claim asserts an environment-variable tier
for every field; but with the non-privileged kernel query yielding
nothing and every environment variable set to X, the kernel field is
the placeholder rather than X, so the kernel field has no
environment-variable tier. -/
theorem kernel_ignores_environment :
    (runCmd "uname -r" false (fun _ => AttemptResult.exc)).1 = "" ∧
    (get_device_info (fun _ => AttemptResult.exc) (fun _ => some "X") none).kernel =
      "Tidak tersedia" ∧
    ("Tidak tersedia" : String) ≠ "X" := by
  decide

/-- C10 (amended): the five property-backed fields (model, board,
brand, android, cpu) follow the three-tier rule of live property query,
then environment-variable override, then placeholder; the kernel and
RAM fields have no environment tier at all (they are invariant under
the environment), the kernel field is the non-privileged uname output
or the placeholder, the RAM field is its own two-tier probe (the free
pipeline output, else the MemTotal token of the meminfo pseudo-file,
with the kB suffix) or the placeholder, and the uname query consults
only the plain-shell strategy, never the elevated one. -/
theorem get_device_info_resolution (exec : List String → AttemptResult)
    (env : String → Option String) (meminfo : Option String) :
    ((get_device_info exec env meminfo).model =
        threeTier (getprop "ro.product.model" exec) (env "DEVICE_MODEL")
          "Tidak tersedia" ∧
     (get_device_info exec env meminfo).board =
        threeTier (getprop "ro.product.board" exec) (env "DEVICE_BOARD")
          "Tidak tersedia" ∧
     (get_device_info exec env meminfo).brand =
        threeTier (getprop "ro.product.manufacturer" exec) (env "DEVICE_BRAND")
          "Tidak tersedia" ∧
     (get_device_info exec env meminfo).android =
        threeTier (getprop "ro.build.version.release" exec) (env "DEVICE_ANDROID")
          "Tidak tersedia" ∧
     (get_device_info exec env meminfo).cpu =
        threeTier (getprop "ro.hardware" exec) (env "DEVICE_CPU")
          "Tidak tersedia") ∧
    ((get_device_info exec env meminfo).kernel =
        (get_device_info exec (fun _ => none) meminfo).kernel ∧
     (get_device_info exec env meminfo).ram =
        (get_device_info exec (fun _ => none) meminfo).ram) ∧
    runCmd "uname -r" false exec =
      runCmd "uname -r" false
        (fun c => if c = ["sh", "-c", "uname -r"] then exec c
          else AttemptResult.exc) ∧
    (get_device_info exec env meminfo).kernel =
      (if (runCmd "uname -r" false exec).1 = "" then "Tidak tersedia"
       else (runCmd "uname -r" false exec).1) ∧
    (get_device_info exec env meminfo).ram =
      ramTwoTier (runCmd freeCmd false exec) meminfo := by
  refine ⟨⟨?_, ?_, ?_, ?_, ?_⟩, ⟨rfl, rfl⟩, ?_, rfl, ?_⟩
  · exact pyOrOpt_eq_threeTier _ _ _
  · exact pyOrOpt_eq_threeTier _ _ _
  · exact pyOrOpt_eq_threeTier _ _ _
  · exact pyOrOpt_eq_threeTier _ _ _
  · exact pyOrOpt_eq_threeTier _ _ _
  · simp [runCmd, try_cmds, runAttempts]
  · exact get_device_info_ram exec env meminfo

end Backend
